import Mathlib

/-!
Shallow embedding of the nir0k/logger Go package (src/logger.go), which
contains three near-duplicate revisions of the package concatenated:
- revision 1 (lines 1-505):    ascending rank map (trace=0..fatal=5), emit when
  message rank >= sink threshold, package wrappers without lazy init;
- revision 2 (lines 505-1295): descending rank map (trace=5..fatal=0), emit when
  message rank <= sink threshold, print-family calls, lazy global init;
- revision 3 (lines 1295-1604): ascending rank map, unconditional file sink
  (Directory config), process exit performed inside log for fatal.
Each revision is embedded in its own namespace V1/V2/V3.  Pure Go functions
become Lean functions; the filesystem and the clock are abstracted by explicit
environment records; emission becomes an explicit event list.
-/

/-- Model of a Go `interface{}` argument passed to a logging call: the
concatenation rule of `fmt.Sprint` distinguishes string operands from
non-string ones, so we keep strings and (representative) integers. -/
inductive GoValue where
  | vstr (s : String)
  | vint (n : Int)
deriving DecidableEq, Repr

/-- String rendering of a single operand, as `fmt.Sprint` renders it. -/
def goFormatValue : GoValue → String
  | .vstr s => s
  | .vint n => toString n

/-- Whether an operand is a string (no separating space next to a string). -/
def isStringOperand : GoValue → Bool
  | .vstr _ => true
  | .vint _ => false

/-- Model of Go `fmt.Sprint(v...)`: operands concatenated, a space inserted
between two adjacent operands only when neither is a string. -/
def goSprint : List GoValue → String
  | [] => ""
  | [a] => goFormatValue a
  | a :: b :: rest =>
      goFormatValue a ++
        (if !(isStringOperand a) && !(isStringOperand b) then " " else "") ++
        goSprint (b :: rest)

/-- Model of Go `fmt.Sprintln(v...)`: spaces between all operands, trailing
newline. -/
def goSprintln : List GoValue → String
  | [] => "\n"
  | [a] => goFormatValue a ++ "\n"
  | a :: b :: rest => goFormatValue a ++ " " ++ goSprintln (b :: rest)

/-- ASCII lower-casing of one character; models `strings.ToLower` at the
character level (the Go function lowercases Unicode generally, but on every
string that can resolve to one of the six ASCII level names the two agree). -/
def goCharToLower (c : Char) : Char :=
  if 'A' ≤ c ∧ c ≤ 'Z' then Char.ofNat (c.toNat + 32) else c

/-- Model of Go `strings.ToLower`. -/
def goToLower (s : String) : String := ⟨s.data.map goCharToLower⟩

/-- ASCII upper-casing of one character; models `strings.ToUpper`. -/
def goCharToUpper (c : Char) : Char :=
  if 'a' ≤ c ∧ c ≤ 'z' then Char.ofNat (c.toNat - 32) else c

/-- Model of Go `strings.ToUpper`. -/
def goToUpper (s : String) : String := ⟨s.data.map goCharToUpper⟩

/-- Model of Go `strings.TrimRight(s, "/")` as used by revision 3. -/
def goTrimRightSlash (s : String) : String :=
  ⟨(s.data.reverse.dropWhile (fun c => c = '/')).reverse⟩

/-- A `FileLevel`/`ConsoleLevel` configuration value: the Go field has type
`interface{}` and may hold a string, an int, nil, or a value of any other
type. -/
inductive LevelValue where
  | lstr (s : String)
  | lint (n : Int)
  | lnil
  | lother
deriving DecidableEq, Repr

/-- Rotation settings (consumed by the external rotation collaborator). -/
structure RotationConfig where
  MaxSize    : Int
  MaxBackups : Int
  MaxAge     : Int
  Compress   : Bool
deriving DecidableEq, Repr

/-- `LogConfig` of revisions 1 and 2 (identical there). -/
structure LogConfig where
  FilePath       : String
  Format         : String
  FileLevel      : LevelValue
  ConsoleLevel   : LevelValue
  ConsoleOutput  : Bool
  EnableRotation : Bool
  RotationConfig : RotationConfig
deriving DecidableEq, Repr

/-- The Go zero value `LogConfig{}` (nil interfaces become `lnil`). -/
def zeroLogConfig : LogConfig :=
  { FilePath := "", Format := "", FileLevel := .lnil, ConsoleLevel := .lnil,
    ConsoleOutput := false, EnableRotation := false,
    RotationConfig := ⟨0, 0, 0, false⟩ }

/-- `setDefaults` of revisions 1 and 2 (identical there): fills absent fields.
The Go function applies its updates sequentially, but each update touches a
field no other condition reads, so the sequential mutation equals this
field-parallel form. -/
def setDefaults (config : LogConfig) : LogConfig :=
  { config with
    Format := if config.Format = "" then "standard" else config.Format,
    FileLevel := if config.FileLevel = .lnil then .lstr "warning" else config.FileLevel,
    ConsoleLevel := if config.ConsoleLevel = .lnil then .lstr "warning" else config.ConsoleLevel,
    RotationConfig :=
      { MaxSize := if config.RotationConfig.MaxSize = 0 then 10 else config.RotationConfig.MaxSize,
        MaxBackups := if config.RotationConfig.MaxBackups = 0 then 7 else config.RotationConfig.MaxBackups,
        MaxAge := if config.RotationConfig.MaxAge = 0 then 30 else config.RotationConfig.MaxAge,
        Compress := config.RotationConfig.Compress } }

namespace V1

/-- Revision 1 `LogLevelMap` (src/logger.go lines 92-99): ascending ranks. -/
def LogLevelMap : String → Option Int
  | "trace" => some 0
  | "debug" => some 1
  | "info" => some 2
  | "warning" => some 3
  | "error" => some 4
  | "fatal" => some 5
  | _ => none

/-- Revision 1 `getLogLevel` closure (lines 103-119): strings looked up
case-insensitively, out-of-range ints rejected, other types rejected. -/
def getLogLevel : LevelValue → Except String Int
  | .lstr v =>
      match LogLevelMap (goToLower v) with
      | some logLevel => .ok logLevel
      | none => .error ("invalid log level: " ++ v)
  | .lint v =>
      if v < 0 ∨ v > 5 then .error ("numeric log level out of range") else .ok v
  | .lnil => .error "invalid type for log level"
  | .lother => .error "invalid type for log level"

end V1

namespace V2

/-- Revision 2 `LogLevelMap` (src/logger.go lines 685-692): descending ranks. -/
def LogLevelMap : String → Option Int
  | "trace" => some 5
  | "debug" => some 4
  | "info" => some 3
  | "warning" => some 2
  | "error" => some 1
  | "fatal" => some 0
  | _ => none

/-- Revision 2 `getLogLevel` closure (lines 696-714): strings looked up
case-insensitively, ints clamped (`< 0` to 0, i.e. "fatal"; `> 5` to 5,
i.e. "trace" — the source comments say so), other types rejected. -/
def getLogLevel : LevelValue → Except String Int
  | .lstr v =>
      match LogLevelMap (goToLower v) with
      | some logLevel => .ok logLevel
      | none => .error ("invalid log level: " ++ v)
  | .lint v =>
      if v < 0 then .ok 0
      else if v > 5 then .ok 5
      else .ok v
  | .lnil => .error "invalid type for log level"
  | .lother => .error "invalid type for log level"

end V2

namespace V3

/-- Revision 3 `LogLevelMap` (src/logger.go lines 1391-1398): ascending ranks,
same table as revision 1. -/
def LogLevelMap : String → Option Int
  | "trace" => some 0
  | "debug" => some 1
  | "info" => some 2
  | "warning" => some 3
  | "error" => some 4
  | "fatal" => some 5
  | _ => none

end V3

/-- Ambient data a log call observes: clock, pid, resolved caller site.
Abstracts `time.Now`, `os.Getpid` and `runtime.Caller`+`trimPathToProject`. -/
structure RenderEnv where
  timestamp : String
  pid : Int
  file : String
  line : Int

/-- A flat-or-nested JSON value, modelling the `interface{}` values that can
appear in the `map[string]interface{}` handed to `json.Marshal`. -/
inductive JValue where
  | jstr (s : String)
  | jint (n : Int)
  | jobj (fields : List (String × JValue))

/-- A JSON value is flat when it is not itself an object. -/
def jvalueFlat : JValue → Bool
  | .jobj _ => false
  | .jstr _ => true
  | .jint _ => true

/-- A rendered log entry: either the bracketed text line or the JSON object
handed to `json.Marshal` (serialization itself is external). -/
inductive Entry where
  | text (s : String)
  | jsonObj (fields : List (String × JValue))

/-- The `logData` map built by revisions 1 and 2 for JSON format
(src/logger.go lines 203-210 and 797-804, identical). -/
def jsonLogData (env : RenderEnv) (level : String) (args : List GoValue) :
    List (String × JValue) :=
  [("timestamp", .jstr env.timestamp),
   ("level", .jstr level),
   ("pid", .jint env.pid),
   ("file", .jstr env.file),
   ("line", .jint env.line),
   ("message", .jstr (goSprint args))]

/-- The bracketed header of a standard-format line in revisions 1 and 2
(src/logger.go lines 198 and 792, identical). -/
def stdHeader (env : RenderEnv) (level : String) : String :=
  "[" ++ env.timestamp ++ "] [PID: " ++ toString env.pid ++ "] ["
    ++ env.file ++ ":" ++ toString env.line ++ "] [" ++ goToUpper level ++ "] "

/-- Entry construction of revisions 1 and 2 (identical): JSON object when the
configured format lower-cases to "json", bracketed text line otherwise. -/
def renderEntry (format : String) (env : RenderEnv) (level : String)
    (args : List GoValue) : Entry :=
  if goToLower format = "json" then .jsonObj (jsonLogData env level args)
  else .text (stdHeader env level ++ goSprint args)

/-- Console color chosen by the switch in revisions 1 and 2 (lines 224-238 and
817-831, identical): named after the `fatih/color` attribute used. -/
def consoleColor : String → String
  | "trace" => "cyan"
  | "debug" => "blue"
  | "info" => "green"
  | "warning" => "yellow"
  | "error" => "red"
  | "fatal" => "hired"
  | _ => "white"

/-- Observable actions of a logging call: a write of a rendered entry to the
file sink, a colorized write to the console (standard output), or a process
exit with a status code (`os.Exit`). -/
inductive Event where
  | fileWrite (entry : Entry)
  | consoleWrite (color : String) (entry : Entry)
  | exitEvent (code : Int)

/-- Whether an event is a write to the file sink. -/
def isFileWrite : Event → Bool
  | .fileWrite _ => true
  | .consoleWrite _ _ => false
  | .exitEvent _ => false

/-- Whether an event is a write to the console (standard output). -/
def isConsoleWrite : Event → Bool
  | .fileWrite _ => false
  | .consoleWrite _ _ => true
  | .exitEvent _ => false

/-- Whether an event list contains a write to the file sink. -/
def containsFileWrite (evs : List Event) : Bool := evs.any isFileWrite

/-- Whether an event list contains a write to the console (standard output). -/
def containsConsoleWrite (evs : List Event) : Bool := evs.any isConsoleWrite

/-- Whether an event is a sink write (not a process exit). -/
def isWriteEvent : Event → Bool
  | .fileWrite _ => true
  | .consoleWrite _ _ => true
  | .exitEvent _ => false

/-- The exit codes issued by an event list, in order. -/
def exitCodes (evs : List Event) : List Int :=
  evs.filterMap fun e => match e with
    | .exitEvent c => some c
    | _ => none

/-- Filesystem environment: whether the parent directory of a path exists
(abstracts `os.Stat(filepath.Dir(path))`) and whether `os.OpenFile` on the
path succeeds. -/
structure FsEnv where
  dirExists : String → Bool
  openOk : String → Bool

/-- Filesystem actions taken at construction time. -/
inductive FsEffect where
  | openFile (path : String)
  | rotationWriter (path : String)
  | mkdirAll (path : String)
deriving DecidableEq, Repr

/-- The `Logger` struct of revisions 1 and 2 (identical shape): resolved sink
thresholds, configuration, and whether a file logger was installed
(`FileLogger != nil`). -/
structure Logger where
  Config : LogConfig
  FileLogLevel : Int
  ConsoleLogLevel : Int
  hasFileLogger : Bool
deriving DecidableEq, Repr

namespace V1

/-- Revision 1 `NewLogger` (src/logger.go lines 86-171): resolves both sink
thresholds with `getLogLevel`, then sets up the file writer only when a file
path is configured, returning the filesystem effects performed. -/
def NewLogger (env : FsEnv) (config : LogConfig) :
    Except String Logger × List FsEffect :=
  let cfg := setDefaults config
  match getLogLevel cfg.FileLevel with
  | .error e => (.error ("invalid file log level: " ++ e), [])
  | .ok fileLevel =>
    match getLogLevel cfg.ConsoleLevel with
    | .error e => (.error ("invalid console log level: " ++ e), [])
    | .ok consoleLevel =>
      if cfg.FilePath ≠ "" then
        if ¬ env.dirExists cfg.FilePath then
          (.error "log directory does not exist", [])
        else if cfg.EnableRotation then
          (.ok ⟨cfg, fileLevel, consoleLevel, true⟩, [.rotationWriter cfg.FilePath])
        else if env.openOk cfg.FilePath then
          (.ok ⟨cfg, fileLevel, consoleLevel, true⟩, [.openFile cfg.FilePath])
        else
          (.error "failed to open log file", [.openFile cfg.FilePath])
      else
        (.ok ⟨cfg, fileLevel, consoleLevel, false⟩, [])

/-- Revision 1 `Logger.log` (src/logger.go lines 175-241): unknown level is
dropped; a global short-circuit skips rendering when the message rank clears
neither threshold; the file sink gets the entry when present and
`msgLevel >= FileLogLevel`; the console gets the colorized entry when console
output is enabled and `msgLevel >= ConsoleLogLevel`. -/
def log (l : Logger) (env : RenderEnv) (level : String) (args : List GoValue) :
    List Event :=
  match LogLevelMap level with
  | none => []
  | some msgLevel =>
    if msgLevel < l.FileLogLevel ∧ msgLevel < l.ConsoleLogLevel then []
    else
      let entry := renderEntry l.Config.Format env level args
      (if l.hasFileLogger ∧ l.FileLogLevel ≤ msgLevel
        then [Event.fileWrite entry] else []) ++
      (if l.Config.ConsoleOutput ∧ l.ConsoleLogLevel ≤ msgLevel
        then [Event.consoleWrite (consoleColor level) entry] else [])

/-- Revision 1 `Logger.Fatal` (src/logger.go lines 440-443): log at fatal,
then `os.Exit(1)`. -/
def Fatal (l : Logger) (env : RenderEnv) (args : List GoValue) : List Event :=
  log l env "fatal" args ++ [Event.exitEvent 1]

/-- Revision 1 package-level wrappers (src/logger.go lines 287-410), all of
the shape `if logInstance != nil { logInstance.<Level>(v...) }`: no lazy
initialization, silent no-op on an empty registry.  `level` selects the
wrapper. -/
def pkgLog (level : String) (s : Option Logger) (env : RenderEnv)
    (args : List GoValue) : Option Logger × List Event :=
  match s with
  | none => (none, [])
  | some l => (some l, log l env level args)

/-- Revision 1 `GetLoggerConfig` (src/logger.go lines 277-282). -/
def GetLoggerConfig (s : Option Logger) : LogConfig :=
  match s with
  | some l => l.Config
  | none => zeroLogConfig

end V1

namespace V2

/-- Revision 2 `NewLogger` (src/logger.go lines 679-766): identical to
revision 1 except that `getLogLevel` clamps numeric levels. -/
def NewLogger (env : FsEnv) (config : LogConfig) :
    Except String Logger × List FsEffect :=
  let cfg := setDefaults config
  match getLogLevel cfg.FileLevel with
  | .error e => (.error ("invalid file log level: " ++ e), [])
  | .ok fileLevel =>
    match getLogLevel cfg.ConsoleLevel with
    | .error e => (.error ("invalid console log level: " ++ e), [])
    | .ok consoleLevel =>
      if cfg.FilePath ≠ "" then
        if ¬ env.dirExists cfg.FilePath then
          (.error "log directory does not exist", [])
        else if cfg.EnableRotation then
          (.ok ⟨cfg, fileLevel, consoleLevel, true⟩, [.rotationWriter cfg.FilePath])
        else if env.openOk cfg.FilePath then
          (.ok ⟨cfg, fileLevel, consoleLevel, true⟩, [.openFile cfg.FilePath])
        else
          (.error "failed to open log file", [.openFile cfg.FilePath])
      else
        (.ok ⟨cfg, fileLevel, consoleLevel, false⟩, [])

/-- Revision 2 `Logger.log` (src/logger.go lines 769-834): level "print"
bypasses both the unknown-level drop and all threshold checks; otherwise the
comparisons are inverted relative to revision 1 (`msgLevel <= threshold`
emits, matching its descending rank table).  A failed map lookup leaves
`msgLevel` at Go's zero value 0. -/
def log (l : Logger) (env : RenderEnv) (level : String) (args : List GoValue) :
    List Event :=
  let msgLevelOpt := LogLevelMap level
  if msgLevelOpt = none ∧ level ≠ "print" then []
  else
    let msgLevel := msgLevelOpt.getD 0
    if level ≠ "print" ∧ l.FileLogLevel < msgLevel ∧ l.ConsoleLogLevel < msgLevel then []
    else
      let entry := renderEntry l.Config.Format env level args
      (if l.hasFileLogger ∧ (level = "print" ∨ msgLevel ≤ l.FileLogLevel)
        then [Event.fileWrite entry] else []) ++
      (if l.Config.ConsoleOutput ∧ (level = "print" ∨ msgLevel ≤ l.ConsoleLogLevel)
        then [Event.consoleWrite (consoleColor level) entry] else [])

/-- Revision 2 `Logger.Print` (src/logger.go lines 1276-1278). -/
def Print (l : Logger) (env : RenderEnv) (args : List GoValue) : List Event :=
  log l env "print" args

/-- Revision 2 `Logger.Printf` (src/logger.go lines 1285-1287); the
`fmt.Sprintf` result is taken as the already-formatted input string. -/
def Printf (l : Logger) (env : RenderEnv) (formatted : String) : List Event :=
  log l env "print" [GoValue.vstr formatted]

/-- Revision 2 `Logger.Println` (src/logger.go lines 1293-1295). -/
def Println (l : Logger) (env : RenderEnv) (args : List GoValue) : List Event :=
  log l env "print" [GoValue.vstr (goSprintln args)]

/-- Revision 2 `Logger.Fatal` (src/logger.go lines 1166-1169). -/
def Fatal (l : Logger) (env : RenderEnv) (args : List GoValue) : List Event :=
  log l env "fatal" args ++ [Event.exitEvent 1]

/-- Revision 2 `defaultConfig` (src/logger.go lines 651-657): standard format,
console output enabled at the "info" threshold, no file path. -/
def defaultConfig : LogConfig :=
  { FilePath := "", Format := "standard", FileLevel := .lnil,
    ConsoleLevel := .lstr "info", ConsoleOutput := true,
    EnableRotation := false, RotationConfig := ⟨0, 0, 0, false⟩ }

/-- Revision 2 `ensureLoggerInitialized` (src/logger.go lines 661-669): when
the registry is empty, construct from `defaultConfig` and install the result
(the global stays empty exactly when that construction fails). -/
def ensureLoggerInitialized (fs : FsEnv) (s : Option Logger) : Option Logger :=
  match s with
  | some l => some l
  | none =>
    match (NewLogger fs defaultConfig).1 with
    | .ok l => some l
    | .error _ => none

/-- Revision 2 package-level wrappers (src/logger.go lines 887-1118), all of
the shape `ensureLoggerInitialized(); if logInstance != nil { ... }`:
`level` selects the wrapper ("print" covers the Print family). -/
def pkgLog (level : String) (fs : FsEnv) (s : Option Logger) (env : RenderEnv)
    (args : List GoValue) : Option Logger × List Event :=
  match ensureLoggerInitialized fs s with
  | none => (none, [])
  | some l => (some l, log l env level args)

/-- Revision 2 `GetLoggerConfig` (src/logger.go lines 873-879): ensure the
registry, then read the installed configuration, zero config if still empty. -/
def GetLoggerConfig (fs : FsEnv) (s : Option Logger) : LogConfig :=
  match ensureLoggerInitialized fs s with
  | some l => l.Config
  | none => zeroLogConfig

end V2

namespace V3

/-- Revision 3 `LogConfig` (src/logger.go lines 1313-1321): a log directory
instead of a file path, string-only levels. -/
structure LogConfig where
  Directory      : String
  Format         : String
  FileLevel      : String
  ConsoleLevel   : String
  ConsoleOutput  : Bool
  EnableRotation : Bool
  RotationConfig : RotationConfig
deriving DecidableEq, Repr

/-- Revision 3 `setDefaults` (src/logger.go lines 1342-1364); as with the
shared `setDefaults`, the sequential Go updates touch disjoint fields, so the
field-parallel form is equivalent. -/
def setDefaults (config : LogConfig) : LogConfig :=
  { config with
    Directory := if config.Directory = "" then "./logs" else config.Directory,
    Format := if config.Format = "" then "standard" else config.Format,
    FileLevel := if config.FileLevel = "" then "info" else config.FileLevel,
    ConsoleLevel := if config.ConsoleLevel = "" then "info" else config.ConsoleLevel,
    RotationConfig :=
      { MaxSize := if config.RotationConfig.MaxSize = 0 then 10 else config.RotationConfig.MaxSize,
        MaxBackups := if config.RotationConfig.MaxBackups = 0 then 7 else config.RotationConfig.MaxBackups,
        MaxAge := if config.RotationConfig.MaxAge = 0 then 30 else config.RotationConfig.MaxAge,
        Compress := config.RotationConfig.Compress } }

/-- Revision 3 `Logger` struct: here the console check in `log` is on the
`ConsoleLogger` field itself, so the model records it. -/
structure Logger where
  Config : LogConfig
  FileLogLevel : Int
  ConsoleLogLevel : Int
  hasFileLogger : Bool
  hasConsoleLogger : Bool
deriving DecidableEq, Repr

/-- Revision 3 `NewLogger` (src/logger.go lines 1385-1451): the log directory
is created when missing and `<dir>/log.txt` is always opened (or handed to the
rotation writer) — there is no configuration without a file sink. -/
def NewLogger (env : FsEnv) (config : LogConfig) :
    Except String Logger × List FsEffect :=
  let cfg := setDefaults config
  match LogLevelMap (goToLower cfg.FileLevel) with
  | none => (.error ("invalid file log level: " ++ cfg.FileLevel), [])
  | some fileLevel =>
  match LogLevelMap (goToLower cfg.ConsoleLevel) with
  | none => (.error ("invalid console log level: " ++ cfg.ConsoleLevel), [])
  | some consoleLevel =>
    let mkdirEffects : List FsEffect :=
      if env.dirExists cfg.Directory then [] else [.mkdirAll cfg.Directory]
    let logFilePath := goTrimRightSlash cfg.Directory ++ "/log.txt"
    if cfg.EnableRotation then
      (.ok ⟨cfg, fileLevel, consoleLevel, true, cfg.ConsoleOutput⟩,
        mkdirEffects ++ [.rotationWriter logFilePath])
    else if env.openOk logFilePath then
      (.ok ⟨cfg, fileLevel, consoleLevel, true, cfg.ConsoleOutput⟩,
        mkdirEffects ++ [.openFile logFilePath])
    else
      (.error "failed to open log file", mkdirEffects ++ [.openFile logFilePath])

/-- Revision 3 `colorize` (src/logger.go lines 1495-1512). -/
def colorize (level : String) : String :=
  match goToLower level with
  | "trace" => "hiblue"
  | "debug" => "hicyan"
  | "info" => "higreen"
  | "warning" => "hiyellow"
  | "error" => "hired"
  | "fatal" => "white-on-hired"
  | _ => "nocolor"

/-- Revision 3 entry rendering (src/logger.go lines 1460-1475): no pid or
caller information; JSON object has only timestamp, level and message. -/
def renderEntry (format : String) (env : RenderEnv) (level : String)
    (args : List GoValue) : Entry :=
  if goToLower format = "json" then
    .jsonObj [("timestamp", .jstr env.timestamp),
              ("level", .jstr level),
              ("message", .jstr (goSprint args))]
  else
    .text ("[" ++ env.timestamp ++ "] [" ++ goToUpper level ++ "] "
      ++ goSprint args)

/-- Revision 3 `Logger.log` (src/logger.go lines 1454-1492): no global
short-circuit; threshold checks as in revision 1; when the level is "fatal"
the process exits with status 1 after the sink writes. -/
def log (l : Logger) (env : RenderEnv) (level : String) (args : List GoValue) :
    List Event :=
  match LogLevelMap level with
  | none => []
  | some msgLevel =>
    let entry := renderEntry l.Config.Format env level args
    ((if l.hasFileLogger ∧ l.FileLogLevel ≤ msgLevel
        then [Event.fileWrite entry] else []) ++
     (if l.hasConsoleLogger ∧ l.ConsoleLogLevel ≤ msgLevel
        then [Event.consoleWrite (colorize level) entry] else [])) ++
    (if level = "fatal" then [Event.exitEvent 1] else [])

end V3


/-- The six canonical level names, in ascending severity order. -/
def levelNames : List String := ["trace", "debug", "info", "warning", "error", "fatal"]

/-- The ascending severity rank (revision 1 table, Go zero value on a miss). -/
def rank1 (s : String) : Int := (V1.LogLevelMap s).getD 0

/-- The descending rank of revision 2 (Go zero value on a miss). -/
def rank2 (s : String) : Int := (V2.LogLevelMap s).getD 0

theorem v1_log_file_emit (l : Logger) (env : RenderEnv) (level : String)
    (args : List GoValue) :
    containsFileWrite (V1.log l env level args) =
      (match V1.LogLevelMap level with
       | none => false
       | some m => l.hasFileLogger && decide (l.FileLogLevel ≤ m)) := by
  unfold V1.log
  cases h : V1.LogLevelMap level with
  | none => rfl
  | some m =>
    dsimp only
    by_cases hsc : m < l.FileLogLevel ∧ m < l.ConsoleLogLevel
    · rw [if_pos hsc]
      have hle : ¬ l.FileLogLevel ≤ m := not_le.mpr hsc.1
      simp [containsFileWrite, hle]
    · rw [if_neg hsc]
      cases hb : l.hasFileLogger <;> by_cases hle : l.FileLogLevel ≤ m <;>
        simp [hb, hle, containsFileWrite, isFileWrite, List.any_append] <;>
        (intros; subst_vars; rfl)

theorem v1_log_console_emit (l : Logger) (env : RenderEnv) (level : String)
    (args : List GoValue) :
    containsConsoleWrite (V1.log l env level args) =
      (match V1.LogLevelMap level with
       | none => false
       | some m => l.Config.ConsoleOutput && decide (l.ConsoleLogLevel ≤ m)) := by
  unfold V1.log
  cases h : V1.LogLevelMap level with
  | none => rfl
  | some m =>
    dsimp only
    by_cases hsc : m < l.FileLogLevel ∧ m < l.ConsoleLogLevel
    · rw [if_pos hsc]
      have hle : ¬ l.ConsoleLogLevel ≤ m := not_le.mpr hsc.2
      simp [containsConsoleWrite, hle]
    · rw [if_neg hsc]
      cases hb : l.Config.ConsoleOutput <;> by_cases hle : l.ConsoleLogLevel ≤ m <;>
        simp [hb, hle, containsConsoleWrite, isConsoleWrite, List.any_append] <;>
        (intros; subst_vars; rfl)

theorem v2_log_file_emit (l : Logger) (env : RenderEnv) (level : String)
    (args : List GoValue) (hne : level ≠ "print") :
    containsFileWrite (V2.log l env level args) =
      (match V2.LogLevelMap level with
       | none => false
       | some m => l.hasFileLogger && decide (m ≤ l.FileLogLevel)) := by
  unfold V2.log
  dsimp only
  cases h : V2.LogLevelMap level with
  | none =>
    rw [if_pos ⟨rfl, hne⟩]
    rfl
  | some m =>
    rw [if_neg (by simp)]
    simp only [Option.getD_some]
    by_cases hsc : l.FileLogLevel < m ∧ l.ConsoleLogLevel < m
    · rw [if_pos ⟨hne, hsc.1, hsc.2⟩]
      have hle : ¬ m ≤ l.FileLogLevel := not_le.mpr hsc.1
      simp [containsFileWrite, hle]
    · rw [if_neg (fun hcon => hsc ⟨hcon.2.1, hcon.2.2⟩)]
      cases hb : l.hasFileLogger <;> by_cases hle : m ≤ l.FileLogLevel <;>
        simp [hb, hle, hne, containsFileWrite, isFileWrite, List.any_append] <;>
        (intros; subst_vars; rfl)

theorem v2_log_console_emit (l : Logger) (env : RenderEnv) (level : String)
    (args : List GoValue) (hne : level ≠ "print") :
    containsConsoleWrite (V2.log l env level args) =
      (match V2.LogLevelMap level with
       | none => false
       | some m => l.Config.ConsoleOutput && decide (m ≤ l.ConsoleLogLevel)) := by
  unfold V2.log
  dsimp only
  cases h : V2.LogLevelMap level with
  | none =>
    rw [if_pos ⟨rfl, hne⟩]
    rfl
  | some m =>
    rw [if_neg (by simp)]
    simp only [Option.getD_some]
    by_cases hsc : l.FileLogLevel < m ∧ l.ConsoleLogLevel < m
    · rw [if_pos ⟨hne, hsc.1, hsc.2⟩]
      have hle : ¬ m ≤ l.ConsoleLogLevel := not_le.mpr hsc.2
      simp [containsConsoleWrite, hle]
    · rw [if_neg (fun hcon => hsc ⟨hcon.2.1, hcon.2.2⟩)]
      cases hb : l.Config.ConsoleOutput <;> by_cases hle : m ≤ l.ConsoleLogLevel <;>
        simp [hb, hle, hne, containsConsoleWrite, isConsoleWrite, List.any_append] <;>
        (intros; subst_vars; rfl)

theorem v2_print_file_emit (l : Logger) (env : RenderEnv) (args : List GoValue) :
    containsFileWrite (V2.log l env "print" args) = l.hasFileLogger := by
  unfold V2.log
  cases hb : l.hasFileLogger <;>
    simp [V2.LogLevelMap, hb, containsFileWrite, isFileWrite, List.any_append]

theorem v2_print_console_emit (l : Logger) (env : RenderEnv) (args : List GoValue) :
    containsConsoleWrite (V2.log l env "print" args) = l.Config.ConsoleOutput := by
  unfold V2.log
  cases hb : l.Config.ConsoleOutput <;>
    simp [V2.LogLevelMap, hb, containsConsoleWrite, isConsoleWrite, List.any_append]

theorem levelNames_map1 (s : String) (hs : s ∈ levelNames) :
    V1.LogLevelMap s = some (rank1 s) := by
  fin_cases hs <;> rfl

theorem levelNames_map2 (s : String) (hs : s ∈ levelNames) :
    V2.LogLevelMap s = some (rank2 s) := by
  fin_cases hs <;> rfl

theorem levelNames_ne_print (s : String) (hs : s ∈ levelNames) : s ≠ "print" := by
  fin_cases hs <;> decide

theorem rank_flip (a b : String) (ha : a ∈ levelNames) (hb : b ∈ levelNames) :
    rank2 a ≤ rank2 b ↔ rank1 b ≤ rank1 a := by
  fin_cases ha <;> fin_cases hb <;> decide

/-- A logger record as produced by construction for a given pair of sink
thresholds: used to quantify claims over sink configurations. -/
def sinkLogger (hasFile consoleOut : Bool) (format : String)
    (fileLevel consoleLevel : Int) : Logger :=
  { Config := { zeroLogConfig with Format := format, ConsoleOutput := consoleOut },
    FileLogLevel := fileLevel, ConsoleLogLevel := consoleLevel,
    hasFileLogger := hasFile }

/-- C1: for every logger, leveled call and sink, the message is emitted to the
sink iff its severity rank (ascending order `rank1`) is at least the sink's
threshold rank, and the file and console outcomes are decoupled (each side of
the conjunction mentions only its own sink's threshold).  This holds for the
revision 1 dispatch (lines 218-223) directly, and for the revision 2 dispatch
(lines 812-816) because its inverted rank table composed with its inverted
comparison yields the same severity-order filtering. -/
theorem c1_sink_threshold_filtering
    (hasFile consoleOut : Bool) (format : String) (env : RenderEnv)
    (args : List GoValue) (msg tf tc : String)
    (hmsg : msg ∈ levelNames) (htf : tf ∈ levelNames) (htc : tc ∈ levelNames) :
    (containsFileWrite
        (V1.log (sinkLogger hasFile consoleOut format (rank1 tf) (rank1 tc)) env msg args)
      = (hasFile && decide (rank1 tf ≤ rank1 msg))) ∧
    (containsConsoleWrite
        (V1.log (sinkLogger hasFile consoleOut format (rank1 tf) (rank1 tc)) env msg args)
      = (consoleOut && decide (rank1 tc ≤ rank1 msg))) ∧
    (containsFileWrite
        (V2.log (sinkLogger hasFile consoleOut format (rank2 tf) (rank2 tc)) env msg args)
      = (hasFile && decide (rank1 tf ≤ rank1 msg))) ∧
    (containsConsoleWrite
        (V2.log (sinkLogger hasFile consoleOut format (rank2 tf) (rank2 tc)) env msg args)
      = (consoleOut && decide (rank1 tc ≤ rank1 msg))) := by
  refine ⟨?_, ?_, ?_, ?_⟩
  · rw [v1_log_file_emit, levelNames_map1 msg hmsg]
    rfl
  · rw [v1_log_console_emit, levelNames_map1 msg hmsg]
    rfl
  · rw [v2_log_file_emit _ _ _ _ (levelNames_ne_print msg hmsg),
      levelNames_map2 msg hmsg]
    dsimp only [sinkLogger]
    congr 1
    rw [decide_eq_decide]
    exact rank_flip msg tf hmsg htf
  · rw [v2_log_console_emit _ _ _ _ (levelNames_ne_print msg hmsg),
      levelNames_map2 msg hmsg]
    dsimp only [sinkLogger]
    congr 1
    rw [decide_eq_decide]
    exact rank_flip msg tc hmsg htc

/-- Witness for C1 at a concrete instance: both sinks enabled, file threshold
"warning", console threshold "fatal", message "error" — the file sink emits
while the console sink suppresses, also exhibiting the decoupling. -/
theorem c1_sink_threshold_filtering_witness :
    (containsFileWrite
        (V1.log (sinkLogger true true "standard" (rank1 "warning") (rank1 "fatal"))
          ⟨"ts", 1, "main.go", 7⟩ "error" [])
      = (true && decide (rank1 "warning" ≤ rank1 "error"))) ∧
    (containsConsoleWrite
        (V1.log (sinkLogger true true "standard" (rank1 "warning") (rank1 "fatal"))
          ⟨"ts", 1, "main.go", 7⟩ "error" [])
      = (true && decide (rank1 "fatal" ≤ rank1 "error"))) ∧
    (containsFileWrite
        (V2.log (sinkLogger true true "standard" (rank2 "warning") (rank2 "fatal"))
          ⟨"ts", 1, "main.go", 7⟩ "error" [])
      = (true && decide (rank1 "warning" ≤ rank1 "error"))) ∧
    (containsConsoleWrite
        (V2.log (sinkLogger true true "standard" (rank2 "warning") (rank2 "fatal"))
          ⟨"ts", 1, "main.go", 7⟩ "error" [])
      = (true && decide (rank1 "fatal" ≤ rank1 "error"))) :=
  c1_sink_threshold_filtering true true "standard" ⟨"ts", 1, "main.go", 7⟩ []
    "error" "warning" "fatal" (by decide) (by decide) (by decide)

/-- C2 counterexample: the claim asserts the rank table strictly increases
with severity, but the revision 2 table (src/logger.go lines 685-692), cited
by the claim itself, assigns trace the rank 5 and debug the rank 4, so already
the first inequality rank(trace) < rank(debug) fails there. -/
theorem c2_counterexample_descending_table :
    ¬ (rank2 "trace" < rank2 "debug") := by decide

/-- C2 amended: the revision 1 table is strictly increasing with severity and
the revision 2 table strictly decreasing (the two are related by
rank2 = 5 - rank1 on all six names; revision 3 uses the revision 1 table);
each table is a fixed literal built at construction and never mutated. -/
theorem c2_rank_tables :
    (rank1 "trace" < rank1 "debug" ∧ rank1 "debug" < rank1 "info" ∧
     rank1 "info" < rank1 "warning" ∧ rank1 "warning" < rank1 "error" ∧
     rank1 "error" < rank1 "fatal") ∧
    (rank2 "debug" < rank2 "trace" ∧ rank2 "info" < rank2 "debug" ∧
     rank2 "warning" < rank2 "info" ∧ rank2 "error" < rank2 "warning" ∧
     rank2 "fatal" < rank2 "error") ∧
    (rank1 "trace" + rank2 "trace" = 5 ∧ rank1 "debug" + rank2 "debug" = 5 ∧
     rank1 "info" + rank2 "info" = 5 ∧ rank1 "warning" + rank2 "warning" = 5 ∧
     rank1 "error" + rank2 "error" = 5 ∧ rank1 "fatal" + rank2 "fatal" = 5) ∧
    (V3.LogLevelMap "trace" = V1.LogLevelMap "trace" ∧
     V3.LogLevelMap "debug" = V1.LogLevelMap "debug" ∧
     V3.LogLevelMap "info" = V1.LogLevelMap "info" ∧
     V3.LogLevelMap "warning" = V1.LogLevelMap "warning" ∧
     V3.LogLevelMap "error" = V1.LogLevelMap "error" ∧
     V3.LogLevelMap "fatal" = V1.LogLevelMap "fatal") := by decide

/-- C3: print-family calls (`Print`, `Printf`, `Println` of revision 2, which
funnel into `log` with the pseudo-level "print", lines 1276-1294) are emitted
to the file sink iff a file logger is installed and to the console iff console
output is enabled — for an arbitrary logger record, hence for every
configuration of the two thresholds, including ranks outside the table. -/
theorem c3_print_bypasses_thresholds (l : Logger) (env : RenderEnv)
    (args : List GoValue) (formatted : String) :
    (containsFileWrite (V2.Print l env args) = l.hasFileLogger) ∧
    (containsConsoleWrite (V2.Print l env args) = l.Config.ConsoleOutput) ∧
    (containsFileWrite (V2.Printf l env formatted) = l.hasFileLogger) ∧
    (containsConsoleWrite (V2.Printf l env formatted) = l.Config.ConsoleOutput) ∧
    (containsFileWrite (V2.Println l env args) = l.hasFileLogger) ∧
    (containsConsoleWrite (V2.Println l env args) = l.Config.ConsoleOutput) :=
  ⟨v2_print_file_emit l env args, v2_print_console_emit l env args,
   v2_print_file_emit l env [GoValue.vstr formatted],
   v2_print_console_emit l env [GoValue.vstr formatted],
   v2_print_file_emit l env [GoValue.vstr (goSprintln args)],
   v2_print_console_emit l env [GoValue.vstr (goSprintln args)]⟩

theorem setDefaults_FilePath (c : LogConfig) : (setDefaults c).FilePath = c.FilePath := rfl

theorem setDefaults_ConsoleOutput (c : LogConfig) :
    (setDefaults c).ConsoleOutput = c.ConsoleOutput := rfl

theorem setDefaults_FileLevel (c : LogConfig) :
    (setDefaults c).FileLevel =
      (if c.FileLevel = .lnil then LevelValue.lstr "warning" else c.FileLevel) := rfl

/-- The ok-component of a level resolution (collapses the error message). -/
def okPart : Except String Int → Option Int
  | .ok v => some v
  | .error _ => none

/-- A filesystem in which every directory exists and every open succeeds. -/
def fsEnvAll : FsEnv := ⟨fun _ => true, fun _ => true⟩

theorem v1_NewLogger_ok (env : FsEnv) (cfg : LogConfig) (l : Logger)
    (h : (V1.NewLogger env cfg).1 = .ok l) :
    V1.getLogLevel (setDefaults cfg).FileLevel = .ok l.FileLogLevel ∧
    V1.getLogLevel (setDefaults cfg).ConsoleLevel = .ok l.ConsoleLogLevel ∧
    l.Config = setDefaults cfg ∧
    l.hasFileLogger = decide (cfg.FilePath ≠ "") := by
  simp only [V1.NewLogger] at h
  cases hf : V1.getLogLevel (setDefaults cfg).FileLevel with
  | error e => rw [hf] at h; simp at h
  | ok fl =>
    rw [hf] at h
    cases hc : V1.getLogLevel (setDefaults cfg).ConsoleLevel with
    | error e => rw [hc] at h; simp at h
    | ok cl =>
      rw [hc] at h
      split_ifs at h with h1 h2 h3 h4 <;> simp only [] at h
      all_goals
        first
        | exact Except.noConfusion h
        | (injection h with h5
           subst h5
           refine ⟨rfl, rfl, rfl, ?_⟩
           simp only [setDefaults_FilePath] at h1
           simp [h1])

theorem v2_NewLogger_ok (env : FsEnv) (cfg : LogConfig) (l : Logger)
    (h : (V2.NewLogger env cfg).1 = .ok l) :
    V2.getLogLevel (setDefaults cfg).FileLevel = .ok l.FileLogLevel ∧
    V2.getLogLevel (setDefaults cfg).ConsoleLevel = .ok l.ConsoleLogLevel ∧
    l.Config = setDefaults cfg ∧
    l.hasFileLogger = decide (cfg.FilePath ≠ "") := by
  simp only [V2.NewLogger] at h
  cases hf : V2.getLogLevel (setDefaults cfg).FileLevel with
  | error e => rw [hf] at h; simp at h
  | ok fl =>
    rw [hf] at h
    cases hc : V2.getLogLevel (setDefaults cfg).ConsoleLevel with
    | error e => rw [hc] at h; simp at h
    | ok cl =>
      rw [hc] at h
      split_ifs at h with h1 h2 h3 h4 <;> simp only [] at h
      all_goals
        first
        | exact Except.noConfusion h
        | (injection h with h5
           subst h5
           refine ⟨rfl, rfl, rfl, ?_⟩
           simp only [setDefaults_FilePath] at h1
           simp [h1])

/-- C4 counterexample: -1 is below the valid numeric range; the claim's clamp
option requires mapping it to the least severe level, but revision 2's
`getLogLevel` (lines 704-710) neither rejects it nor maps it to the least
severe level "trace" — it returns rank 0, the rank of "fatal", the most
severe level of its table. -/
theorem c4_counterexample_clamp_direction :
    okPart (V2.getLogLevel (.lint (-1))) = some (rank2 "fatal") ∧
    okPart (V2.getLogLevel (.lint (-1))) ≠ some (rank2 "trace") := by
  exact ⟨rfl, by decide⟩

/-- C4 amended: each revision resolves both sink thresholds with one shared
`getLogLevel` resolver, so the numeric policy is uniform across the two sinks
within a revision; revision 1 rejects every out-of-range integer with an
error, while revision 2 clamps into the valid rank range 0..5 — below the
minimum to rank 0 and above the maximum to rank 5, which under its descending
table are the most severe level ("fatal") and the least severe ("trace")
respectively, the reverse of the direction the claim states. -/
theorem c4_numeric_level_policy (v : Int) (cfg : LogConfig) (env : FsEnv)
    (l1 l2 : Logger) :
    ((v < 0 ∨ 5 < v) →
      V1.getLogLevel (.lint v) = .error "numeric log level out of range") ∧
    (0 ≤ v → v ≤ 5 → V1.getLogLevel (.lint v) = .ok v) ∧
    (v < 0 → V2.getLogLevel (.lint v) = .ok (rank2 "fatal")) ∧
    (5 < v → V2.getLogLevel (.lint v) = .ok (rank2 "trace")) ∧
    (0 ≤ v → v ≤ 5 → V2.getLogLevel (.lint v) = .ok v) ∧
    ((V1.NewLogger env cfg).1 = .ok l1 →
      V1.getLogLevel (setDefaults cfg).FileLevel = .ok l1.FileLogLevel ∧
      V1.getLogLevel (setDefaults cfg).ConsoleLevel = .ok l1.ConsoleLogLevel) ∧
    ((V2.NewLogger env cfg).1 = .ok l2 →
      V2.getLogLevel (setDefaults cfg).FileLevel = .ok l2.FileLogLevel ∧
      V2.getLogLevel (setDefaults cfg).ConsoleLevel = .ok l2.ConsoleLogLevel) := by
  refine ⟨?_, ?_, ?_, ?_, ?_, ?_, ?_⟩
  · intro h
    simp only [V1.getLogLevel]
    rw [if_pos h]
  · intro h0 h5
    simp only [V1.getLogLevel]
    rw [if_neg (by omega)]
  · intro h
    simp only [V2.getLogLevel]
    rw [if_pos h]
    rfl
  · intro h
    simp only [V2.getLogLevel]
    rw [if_neg (by omega), if_pos h]
    rfl
  · intro h0 h5
    simp only [V2.getLogLevel]
    rw [if_neg (by omega), if_neg (by omega)]
  · intro h
    exact ⟨(v1_NewLogger_ok env cfg l1 h).1, (v1_NewLogger_ok env cfg l1 h).2.1⟩
  · intro h
    exact ⟨(v2_NewLogger_ok env cfg l2 h).1, (v2_NewLogger_ok env cfg l2 h).2.1⟩

/-- A configuration giving both sink thresholds as in-range integers. -/
def intLevelConfig : LogConfig :=
  { zeroLogConfig with
    FileLevel := .lint 2,
    ConsoleLevel := .lint 4,
    ConsoleOutput := true }

/-- The logger revision 1 and revision 2 both construct from
`intLevelConfig`. -/
def intLevelLogger : Logger :=
  { Config := setDefaults intLevelConfig, FileLogLevel := 2,
    ConsoleLogLevel := 4, hasFileLogger := false }

/-- Witness for C4: concrete out-of-range and in-range integers under each
policy, and the two thresholds of a concrete construction resolved by the
same resolver. -/
theorem c4_numeric_level_policy_witness :
    V1.getLogLevel (.lint 7) = .error "numeric log level out of range" ∧
    V1.getLogLevel (.lint 3) = .ok 3 ∧
    V2.getLogLevel (.lint (-2)) = .ok (rank2 "fatal") ∧
    V2.getLogLevel (.lint 9) = .ok (rank2 "trace") ∧
    V2.getLogLevel (.lint 3) = .ok 3 ∧
    (V1.getLogLevel (setDefaults intLevelConfig).FileLevel = .ok intLevelLogger.FileLogLevel ∧
     V1.getLogLevel (setDefaults intLevelConfig).ConsoleLevel = .ok intLevelLogger.ConsoleLogLevel) ∧
    (V2.getLogLevel (setDefaults intLevelConfig).FileLevel = .ok intLevelLogger.FileLogLevel ∧
     V2.getLogLevel (setDefaults intLevelConfig).ConsoleLevel = .ok intLevelLogger.ConsoleLogLevel) :=
  ⟨(c4_numeric_level_policy 7 intLevelConfig fsEnvAll intLevelLogger intLevelLogger).1
      (Or.inr (by decide)),
   (c4_numeric_level_policy 3 intLevelConfig fsEnvAll intLevelLogger intLevelLogger).2.1
      (by decide) (by decide),
   (c4_numeric_level_policy (-2) intLevelConfig fsEnvAll intLevelLogger intLevelLogger).2.2.1
      (by decide),
   (c4_numeric_level_policy 9 intLevelConfig fsEnvAll intLevelLogger intLevelLogger).2.2.2.1
      (by decide),
   (c4_numeric_level_policy 3 intLevelConfig fsEnvAll intLevelLogger intLevelLogger).2.2.2.2.1
      (by decide) (by decide),
   (c4_numeric_level_policy 0 intLevelConfig fsEnvAll intLevelLogger intLevelLogger).2.2.2.2.2.1
      rfl,
   (c4_numeric_level_policy 0 intLevelConfig fsEnvAll intLevelLogger intLevelLogger).2.2.2.2.2.2
      rfl⟩

theorem v3_log_console_emit (l : V3.Logger) (env : RenderEnv) (level : String)
    (args : List GoValue) :
    containsConsoleWrite (V3.log l env level args) =
      (match V3.LogLevelMap level with
       | none => false
       | some m => l.hasConsoleLogger && decide (l.ConsoleLogLevel ≤ m)) := by
  unfold V3.log
  cases h : V3.LogLevelMap level with
  | none => rfl
  | some m =>
    dsimp only
    cases hb : l.hasConsoleLogger <;> by_cases hle : l.ConsoleLogLevel ≤ m <;>
      simp [hb, hle, containsConsoleWrite, isConsoleWrite, List.any_append] <;>
      (intros; subst_vars; rfl)

theorem v3_NewLogger_ok (env : FsEnv) (cfg : V3.LogConfig) (l : V3.Logger)
    (h : (V3.NewLogger env cfg).1 = .ok l) :
    l.Config = V3.setDefaults cfg ∧ l.hasFileLogger = true ∧
    l.hasConsoleLogger = cfg.ConsoleOutput := by
  simp only [V3.NewLogger] at h
  cases hf : V3.LogLevelMap (goToLower (V3.setDefaults cfg).FileLevel) with
  | none => rw [hf] at h; exact Except.noConfusion h
  | some fl =>
    rw [hf] at h
    cases hc : V3.LogLevelMap (goToLower (V3.setDefaults cfg).ConsoleLevel) with
    | none => rw [hc] at h; exact Except.noConfusion h
    | some cl =>
      rw [hc] at h
      split_ifs at h <;> simp only [] at h
      all_goals
        first
        | exact Except.noConfusion h
        | (injection h with h5
           subst h5
           exact ⟨rfl, rfl, rfl⟩)

/-- A revision 3 configuration that asks only for a console sink: no log
directory is configured and console output is enabled. -/
def consoleOnlyConfig3 : V3.LogConfig :=
  { Directory := "", Format := "", FileLevel := "", ConsoleLevel := "",
    ConsoleOutput := true, EnableRotation := false,
    RotationConfig := ⟨0, 0, 0, false⟩ }

/-- C5 counterexample: under revision 3 (lines 1415-1443, cited by the
claim), a construction with no file destination configured still opens a log
file — the directory defaults to ./logs and ./logs/log.txt is opened
unconditionally — so a console-only logger does create a file there. -/
theorem c5_counterexample_unconditional_file :
    (V3.NewLogger fsEnvAll consoleOnlyConfig3).2 = [FsEffect.openFile "./logs/log.txt"] ∧
    (V3.NewLogger fsEnvAll consoleOnlyConfig3).2 ≠ [] := by
  exact ⟨rfl, by decide⟩

/-- C5 amended: in revision 1, a construction with no file path performs no
filesystem action, and a logger whose console output is disabled never writes
to standard output (the constructed logger keeps the configured
`ConsoleOutput`); in revision 3 only the console half survives — a logger
whose console logger is absent never writes to standard output, and
construction installs a console logger exactly when `ConsoleOutput` is set —
while the file sink is unconditional there. -/
theorem c5_sink_isolation (cfg : LogConfig) (env : FsEnv) (l : Logger)
    (l3 : V3.Logger) (cfg3 : V3.LogConfig) (renv : RenderEnv) (level : String)
    (args : List GoValue) :
    (cfg.FilePath = "" → (V1.NewLogger env cfg).2 = []) ∧
    (l.Config.ConsoleOutput = false →
      containsConsoleWrite (V1.log l renv level args) = false) ∧
    ((V1.NewLogger env cfg).1 = .ok l → l.Config.ConsoleOutput = cfg.ConsoleOutput) ∧
    (l3.hasConsoleLogger = false →
      containsConsoleWrite (V3.log l3 renv level args) = false) ∧
    ((V3.NewLogger env cfg3).1 = .ok l3 → l3.hasConsoleLogger = cfg3.ConsoleOutput) := by
  refine ⟨?_, ?_, ?_, ?_, ?_⟩
  · intro h
    simp only [V1.NewLogger]
    have h0 : (setDefaults cfg).FilePath = "" := by rw [setDefaults_FilePath, h]
    cases V1.getLogLevel (setDefaults cfg).FileLevel with
    | error e => rfl
    | ok fl =>
      cases V1.getLogLevel (setDefaults cfg).ConsoleLevel with
      | error e => rfl
      | ok cl =>
        dsimp only
        rw [if_neg (by simp [h0])]
  · intro h
    rw [v1_log_console_emit]
    cases V1.LogLevelMap level <;> simp [h]
  · intro h
    rw [(v1_NewLogger_ok env cfg l h).2.2.1, setDefaults_ConsoleOutput]
  · intro h
    rw [v3_log_console_emit]
    cases V3.LogLevelMap level <;> simp [h]
  · intro h
    exact (v3_NewLogger_ok env cfg3 l3 h).2.2

/-- A revision 1/2 configuration with only a console sink. -/
def consoleOnlyConfig1 : LogConfig :=
  { zeroLogConfig with
    ConsoleOutput := true,
    FileLevel := .lstr "info",
    ConsoleLevel := .lstr "info" }

/-- A revision 1/2 configuration with only a file sink. -/
def fileOnlyConfig1 : LogConfig :=
  { zeroLogConfig with
    FilePath := "/tmp/app.log",
    FileLevel := .lstr "error",
    ConsoleLevel := .lstr "error" }

/-- The logger revision 1 constructs from `fileOnlyConfig1`. -/
def fileOnlyLogger1 : Logger :=
  { Config := setDefaults fileOnlyConfig1, FileLogLevel := 4,
    ConsoleLogLevel := 4, hasFileLogger := true }

/-- A revision 3 configuration with console output disabled. -/
def fileOnlyConfig3 : V3.LogConfig :=
  { Directory := "/var/log", Format := "", FileLevel := "", ConsoleLevel := "",
    ConsoleOutput := false, EnableRotation := false,
    RotationConfig := ⟨0, 0, 0, false⟩ }

/-- The logger revision 3 constructs from `fileOnlyConfig3`. -/
def fileOnlyLogger3 : V3.Logger :=
  { Config := V3.setDefaults fileOnlyConfig3, FileLogLevel := 2,
    ConsoleLogLevel := 2, hasFileLogger := true, hasConsoleLogger := false }

/-- Witness for C5: a console-only revision 1 construction performs no
filesystem action; concrete file-only loggers of revisions 1 and 3 produce no
console write on an error-level call. -/
theorem c5_sink_isolation_witness :
    (V1.NewLogger fsEnvAll consoleOnlyConfig1).2 = [] ∧
    containsConsoleWrite
      (V1.log fileOnlyLogger1 ⟨"ts", 1, "main.go", 7⟩ "error" [GoValue.vstr "m"]) = false ∧
    fileOnlyLogger1.Config.ConsoleOutput = fileOnlyConfig1.ConsoleOutput ∧
    containsConsoleWrite
      (V3.log fileOnlyLogger3 ⟨"ts", 1, "main.go", 7⟩ "error" [GoValue.vstr "m"]) = false ∧
    fileOnlyLogger3.hasConsoleLogger = fileOnlyConfig3.ConsoleOutput :=
  ⟨(c5_sink_isolation consoleOnlyConfig1 fsEnvAll fileOnlyLogger1 fileOnlyLogger3
      fileOnlyConfig3 ⟨"ts", 1, "main.go", 7⟩ "error" [GoValue.vstr "m"]).1 rfl,
   (c5_sink_isolation fileOnlyConfig1 fsEnvAll fileOnlyLogger1 fileOnlyLogger3
      fileOnlyConfig3 ⟨"ts", 1, "main.go", 7⟩ "error" [GoValue.vstr "m"]).2.1 rfl,
   (c5_sink_isolation fileOnlyConfig1 fsEnvAll fileOnlyLogger1 fileOnlyLogger3
      fileOnlyConfig3 ⟨"ts", 1, "main.go", 7⟩ "error" [GoValue.vstr "m"]).2.2.1 rfl,
   (c5_sink_isolation fileOnlyConfig1 fsEnvAll fileOnlyLogger1 fileOnlyLogger3
      fileOnlyConfig3 ⟨"ts", 1, "main.go", 7⟩ "error" [GoValue.vstr "m"]).2.2.2.1 rfl,
   (c5_sink_isolation fileOnlyConfig1 fsEnvAll fileOnlyLogger1 fileOnlyLogger3
      fileOnlyConfig3 ⟨"ts", 1, "main.go", 7⟩ "error" [GoValue.vstr "m"]).2.2.2.2 rfl⟩

/-- A configuration whose file level is the unrecognized name "VERBOSE". -/
def unknownLevelConfig : LogConfig :=
  { zeroLogConfig with FileLevel := .lstr "VERBOSE" }

/-- C9: string level lookup lower-cases its input first, so two spellings
that agree up to case resolve to the same rank (or both fail) in both
revisions; and a name whose lower-casing is not one of the six canonical
names makes `getLogLevel` fail, which makes `NewLogger` return an error — no
logger value is produced (the `Except` is in its error constructor). -/
theorem c9_level_name_resolution (s t : String) (cfg : LogConfig) (env : FsEnv) :
    (goToLower s = goToLower t →
      okPart (V1.getLogLevel (.lstr s)) = okPart (V1.getLogLevel (.lstr t)) ∧
      okPart (V2.getLogLevel (.lstr s)) = okPart (V2.getLogLevel (.lstr t))) ∧
    (V1.LogLevelMap (goToLower s) = none →
      V1.getLogLevel (.lstr s) = .error ("invalid log level: " ++ s)) ∧
    (V2.LogLevelMap (goToLower s) = none →
      V2.getLogLevel (.lstr s) = .error ("invalid log level: " ++ s)) ∧
    (cfg.FileLevel = .lstr s → V1.LogLevelMap (goToLower s) = none →
      (V1.NewLogger env cfg).1 =
        .error ("invalid file log level: " ++ ("invalid log level: " ++ s))) ∧
    (cfg.FileLevel = .lstr s → V2.LogLevelMap (goToLower s) = none →
      (V2.NewLogger env cfg).1 =
        .error ("invalid file log level: " ++ ("invalid log level: " ++ s))) := by
  refine ⟨?_, ?_, ?_, ?_, ?_⟩
  · intro h
    constructor
    · simp only [V1.getLogLevel]
      rw [h]
      cases V1.LogLevelMap (goToLower t) <;> rfl
    · simp only [V2.getLogLevel]
      rw [h]
      cases V2.LogLevelMap (goToLower t) <;> rfl
  · intro h
    simp only [V1.getLogLevel]
    rw [h]
  · intro h
    simp only [V2.getLogLevel]
    rw [h]
  · intro hcfg hnone
    have hfl : (setDefaults cfg).FileLevel = .lstr s := by
      rw [setDefaults_FileLevel, hcfg]
      rfl
    simp only [V1.NewLogger, hfl, V1.getLogLevel]
    rw [hnone]
  · intro hcfg hnone
    have hfl : (setDefaults cfg).FileLevel = .lstr s := by
      rw [setDefaults_FileLevel, hcfg]
      rfl
    simp only [V2.NewLogger, hfl, V2.getLogLevel]
    rw [hnone]

/-- Witness for C9: "VERBOSE" and "verBOSE" agree up to case and both fail to
resolve; a construction whose file level is "VERBOSE" returns the
construction error. -/
theorem c9_level_name_resolution_witness :
    (okPart (V1.getLogLevel (.lstr "VERBOSE")) = okPart (V1.getLogLevel (.lstr "verBOSE")) ∧
     okPart (V2.getLogLevel (.lstr "VERBOSE")) = okPart (V2.getLogLevel (.lstr "verBOSE"))) ∧
    V1.getLogLevel (.lstr "VERBOSE") = .error ("invalid log level: " ++ "VERBOSE") ∧
    V2.getLogLevel (.lstr "VERBOSE") = .error ("invalid log level: " ++ "VERBOSE") ∧
    (V1.NewLogger fsEnvAll unknownLevelConfig).1 =
      .error ("invalid file log level: " ++ ("invalid log level: " ++ "VERBOSE")) ∧
    (V2.NewLogger fsEnvAll unknownLevelConfig).1 =
      .error ("invalid file log level: " ++ ("invalid log level: " ++ "VERBOSE")) :=
  ⟨(c9_level_name_resolution "VERBOSE" "verBOSE" unknownLevelConfig fsEnvAll).1 (by decide),
   (c9_level_name_resolution "VERBOSE" "verBOSE" unknownLevelConfig fsEnvAll).2.1 (by decide),
   (c9_level_name_resolution "VERBOSE" "verBOSE" unknownLevelConfig fsEnvAll).2.2.1 (by decide),
   (c9_level_name_resolution "VERBOSE" "verBOSE" unknownLevelConfig fsEnvAll).2.2.2.1
      rfl (by decide),
   (c9_level_name_resolution "VERBOSE" "verBOSE" unknownLevelConfig fsEnvAll).2.2.2.2
      rfl (by decide)⟩

/-- The logger that `V2.ensureLoggerInitialized` installs on an empty
registry: the defaulted default configuration, file threshold "warning"
(rank 2 in the descending table), console threshold "info" (rank 3), no file
logger. -/
def defaultLogger2 : Logger :=
  { Config := setDefaults V2.defaultConfig, FileLogLevel := 2,
    ConsoleLogLevel := 3, hasFileLogger := false }

/-- C6 counterexample: the claim says every package-level convenience
operation first ensures the global instance is initialized, but the revision 1
wrapper (`Trace`, lines 287-291, cited by the claim) performs no
initialization: on an empty registry it leaves the registry empty and emits
nothing, even though the default construction it should have attempted
succeeds (as revision 2's `ensureLoggerInitialized` shows). -/
theorem c6_counterexample_no_lazy_init :
    V1.pkgLog "trace" none ⟨"ts", 1, "main.go", 7⟩ [GoValue.vstr "m"] = (none, []) ∧
    V2.ensureLoggerInitialized fsEnvAll none ≠ none := by
  exact ⟨rfl, by decide⟩

/-- C6 amended: in revision 2 every package-level convenience operation first
runs `ensureLoggerInitialized` — on an empty registry this installs the
instance built from the fixed default configuration (standard format, console
enabled at the "info" threshold, no file path, hence no file sink and no
filesystem action) — and then no-ops silently if the registry is still empty;
in revision 1 the package-level operations perform no initialization at all
and silently no-op whenever the registry is empty. -/
theorem c6_package_lazy_initialization (level : String) (fs : FsEnv)
    (l : Logger) (env : RenderEnv) (args : List GoValue) :
    V1.pkgLog level none env args = (none, []) ∧
    (V2.pkgLog level fs none env args).1 = some defaultLogger2 ∧
    (V2.pkgLog level fs (some l) env args).1 = some l ∧
    V2.defaultConfig.Format = "standard" ∧
    V2.defaultConfig.ConsoleLevel = .lstr "info" ∧
    V2.defaultConfig.ConsoleOutput = true ∧
    V2.defaultConfig.FilePath = "" ∧
    defaultLogger2.ConsoleLogLevel = rank2 "info" ∧
    defaultLogger2.FileLogLevel = rank2 "warning" ∧
    defaultLogger2.hasFileLogger = false ∧
    (V2.NewLogger fs V2.defaultConfig).2 = [] :=
  ⟨rfl, rfl, rfl, rfl, rfl, rfl, rfl, rfl, rfl, rfl, rfl⟩

/-- C10 counterexample: with the registry empty, revision 2's
`GetLoggerConfig` (lines 873-879, cited by the claim) does not return the
zero-valued configuration — its `ensureLoggerInitialized` call installs the
default instance first, so the defaulted default configuration is returned. -/
theorem c10_counterexample_default_config_returned :
    V2.GetLoggerConfig fsEnvAll none ≠ zeroLogConfig ∧
    V2.GetLoggerConfig fsEnvAll none = setDefaults V2.defaultConfig := by
  exact ⟨by decide, rfl⟩

/-- C10 amended: revision 1's `GetLoggerConfig` returns the zero-valued
configuration whenever no instance is installed (and the stored configuration
otherwise), never failing; revision 2's first runs `ensureLoggerInitialized`,
so on an empty registry it installs the default instance and returns that
defaulted configuration — its zero-config fallback is reached only if the
registry is still empty after the attempt, which the always-succeeding
default construction prevents. -/
theorem c10_get_logger_config (l : Logger) (fs : FsEnv) :
    V1.GetLoggerConfig none = zeroLogConfig ∧
    V1.GetLoggerConfig (some l) = l.Config ∧
    V2.GetLoggerConfig fs none = setDefaults V2.defaultConfig ∧
    V2.GetLoggerConfig fs (some l) = l.Config :=
  ⟨rfl, rfl, rfl, rfl⟩

/-- Key lookup in the association list handed to `json.Marshal` (consumers
parse by key, so the record is characterized by key). -/
def lookupKey : List (String × JValue) → String → Option JValue
  | [], _ => none
  | kv :: rest, k => if kv.1 = k then some kv.2 else lookupKey rest k

/-- C7: the JSON record of revisions 1 and 2 (identical construction, lines
203-210 and 797-804) has exactly the keys timestamp, level, pid, file, line,
message; every value is flat (not a nested object); the message value is the
`fmt.Sprint` concatenation of the call's arguments; and the JSON format
renders exactly this object. -/
theorem c7_json_record_shape (env : RenderEnv) (level : String)
    (args : List GoValue) :
    ((jsonLogData env level args).map Prod.fst =
      ["timestamp", "level", "pid", "file", "line", "message"]) ∧
    ((jsonLogData env level args).all (fun kv => jvalueFlat kv.2) = true) ∧
    (lookupKey (jsonLogData env level args) "message" =
      some (.jstr (goSprint args))) ∧
    (lookupKey (jsonLogData env level args) "level" = some (.jstr level)) ∧
    (renderEntry "json" env level args = .jsonObj (jsonLogData env level args)) :=
  ⟨rfl, rfl, rfl, rfl, rfl⟩

theorem exitCodes_append (a b : List Event) :
    exitCodes (a ++ b) = exitCodes a ++ exitCodes b := by
  simp [exitCodes, List.filterMap_append]

theorem v1_log_no_exit (l : Logger) (env : RenderEnv) (level : String)
    (args : List GoValue) : exitCodes (V1.log l env level args) = [] := by
  unfold V1.log
  cases V1.LogLevelMap level with
  | none => rfl
  | some m =>
    dsimp only
    split_ifs <;> simp [exitCodes]

theorem v1_log_all_writes (l : Logger) (env : RenderEnv) (level : String)
    (args : List GoValue) : (V1.log l env level args).all isWriteEvent = true := by
  unfold V1.log
  cases V1.LogLevelMap level with
  | none => rfl
  | some m =>
    dsimp only
    split_ifs <;> simp [isWriteEvent]

/-- The event list of a revision 3 fatal call: the two threshold-gated sink
writes followed by the exit with status 1. -/
theorem v3_log_fatal_shape (l3 : V3.Logger) (env : RenderEnv) (args : List GoValue) :
    V3.log l3 env "fatal" args =
      ((if l3.hasFileLogger ∧ l3.FileLogLevel ≤ 5
          then [Event.fileWrite (V3.renderEntry l3.Config.Format env "fatal" args)]
          else []) ++
       (if l3.hasConsoleLogger ∧ l3.ConsoleLogLevel ≤ 5
          then [Event.consoleWrite (V3.colorize "fatal")
                  (V3.renderEntry l3.Config.Format env "fatal" args)]
          else []))
      ++ [Event.exitEvent 1] := rfl

/-- C8: a fatal call issues the exit with status 1 (non-zero) as its last
event, strictly after every sink write; every event before the exit is a sink
write; exactly one exit is issued; and the writes issued before the exit are
exactly those of the sinks whose threshold the fatal rank 5 clears.  Proved
for revision 1's `Fatal` (log then `os.Exit(1)`, lines 440-443) and for
revision 3's `log` at fatal (exit inside `log` after the writes, lines
1488-1491). -/
theorem c8_fatal_exit_after_writes (l : Logger) (l3 : V3.Logger)
    (env : RenderEnv) (args : List GoValue) :
    ((V1.Fatal l env args).getLast? = some (Event.exitEvent 1)) ∧
    (exitCodes (V1.Fatal l env args) = [1]) ∧
    ((V1.Fatal l env args).dropLast.all isWriteEvent = true) ∧
    (containsFileWrite (V1.Fatal l env args).dropLast =
      (l.hasFileLogger && decide (l.FileLogLevel ≤ 5))) ∧
    (containsConsoleWrite (V1.Fatal l env args).dropLast =
      (l.Config.ConsoleOutput && decide (l.ConsoleLogLevel ≤ 5))) ∧
    ((V3.log l3 env "fatal" args).getLast? = some (Event.exitEvent 1)) ∧
    (exitCodes (V3.log l3 env "fatal" args) = [1]) ∧
    ((V3.log l3 env "fatal" args).dropLast.all isWriteEvent = true) ∧
    (containsFileWrite (V3.log l3 env "fatal" args).dropLast =
      (l3.hasFileLogger && decide (l3.FileLogLevel ≤ 5))) ∧
    (containsConsoleWrite (V3.log l3 env "fatal" args).dropLast =
      (l3.hasConsoleLogger && decide (l3.ConsoleLogLevel ≤ 5))) := by
  refine ⟨?_, ?_, ?_, ?_, ?_, ?_, ?_, ?_, ?_, ?_⟩
  · show (V1.log l env "fatal" args ++ [Event.exitEvent 1]).getLast? = _
    simp
  · show exitCodes (V1.log l env "fatal" args ++ [Event.exitEvent 1]) = [1]
    rw [exitCodes_append, v1_log_no_exit]
    rfl
  · show (V1.log l env "fatal" args ++ [Event.exitEvent 1]).dropLast.all _ = true
    rw [List.dropLast_concat]
    exact v1_log_all_writes l env "fatal" args
  · show containsFileWrite (V1.log l env "fatal" args ++ [Event.exitEvent 1]).dropLast = _
    rw [List.dropLast_concat, v1_log_file_emit]
    rfl
  · show containsConsoleWrite (V1.log l env "fatal" args ++ [Event.exitEvent 1]).dropLast = _
    rw [List.dropLast_concat, v1_log_console_emit]
    rfl
  · rw [v3_log_fatal_shape]
    simp
  · rw [v3_log_fatal_shape, exitCodes_append, exitCodes_append]
    split_ifs <;> rfl
  · rw [v3_log_fatal_shape, List.dropLast_concat]
    split_ifs <;> simp [isWriteEvent]
  · rw [v3_log_fatal_shape, List.dropLast_concat]
    cases hb : l3.hasFileLogger <;> by_cases hle : l3.FileLogLevel ≤ (5 : Int) <;>
      simp [hb, hle, containsFileWrite, isFileWrite, List.any_append] <;>
      (intros; subst_vars; rfl)
  · rw [v3_log_fatal_shape, List.dropLast_concat]
    cases hb : l3.hasConsoleLogger <;> by_cases hle : l3.ConsoleLogLevel ≤ (5 : Int) <;>
      simp [hb, hle, containsConsoleWrite, isConsoleWrite, List.any_append] <;>
      (intros; subst_vars; rfl)
